import Mathlib

/-!
Shallow embedding of `src/movement/watch_faces/tally_face/tally_face.c`
(the Sensor Watch goal-tracker face), together with theorems checking the
natural-language specification against it.

Modelling conventions:
  * machine integers are `Nat` with an explicit `% 2^w` wherever the C code
    can overflow (`uint8` hold/tap counters, the `uint32` millisecond clock);
    unsigned subtraction `a - b` on `uint32` is `u32sub`;
  * the 8-byte backup SRAM is a function `Nat → Nat` whose writes truncate
    to a byte, mirroring `watch_store_backup_data`;
  * `float` arithmetic in `compute_deficit` is idealised as exact `ℚ`
    arithmetic (the literal `0.0001f` becomes `1/10000`);
  * the date source (`movement_get_local_time`) is an explicit
    `Option (Nat × Nat × Nat)` parameter (year, month, day);
  * display calls are modelled by a pure `render` function returning the top
    line string and an abstract main line (`time`, raw text, or the deficit
    value whose `%5.2f` formatting is external);
  * each call of `tally_face_loop` additionally returns the (ghost) list of
    gestures whose handler fired during that event, so that the gesture
    claims can be stated.
-/

namespace TallyFace

/-- Two to the thirty-second power: the modulus of `uint32` arithmetic. -/
def U32 : Nat := 4294967296

/-- `uint32` subtraction `a - b` (wrapping), on values reduced mod `2^32`. -/
def u32sub (a b : Nat) : Nat := (a % U32 + (U32 - b % U32)) % U32

/-! ### Backup storage (`watch_get_backup_data` / `watch_store_backup_data`) -/

/-- Byte-addressable backup SRAM; each cell holds a byte. -/
def Storage : Type := Nat → Nat

/-- Read one backup byte. -/
def watch_get_backup_data (st : Storage) (idx : Nat) : Nat := st idx % 256

/-- Write one backup byte (truncated to 8 bits, as the `uint8_t` cast does). -/
def watch_store_backup_data (st : Storage) (idx : Nat) (v : Nat) : Storage :=
  fun i => if i = idx then v % 256 else st i

/-- `backup_read_u16`: little-endian 16-bit read across two backup bytes. -/
def backup_read_u16 (st : Storage) (lo_idx hi_idx : Nat) : Nat :=
  watch_get_backup_data st lo_idx + (watch_get_backup_data st hi_idx) * 256

/-- `backup_write_u16`: little-endian 16-bit write across two backup bytes. -/
def backup_write_u16 (st : Storage) (lo_idx hi_idx : Nat) (v : Nat) : Storage :=
  watch_store_backup_data (watch_store_backup_data st lo_idx (v % 256)) hi_idx (v / 256 % 256)

/-! ### Date helpers and the deficit calculator -/

/-- The month-length table `mdays` of `days_in_month`. -/
def mdays : List Nat := [31, 28, 31, 30, 31, 30, 31, 31, 30, 31, 30, 31]

/-- `days_in_month`: table lookup, with the Gregorian leap-year rule for
February.  (The C array access `mdays[m-1]` is undefined for `m ∉ [1,12]`;
the embedding totalises it with the dominant entry 31.) -/
def days_in_month (y m : Nat) : Nat :=
  if m ≠ 2 then mdays.getD (m - 1) 31
  else if (y % 4 = 0 ∧ y % 100 ≠ 0) ∨ y % 400 = 0 then 29 else 28

/-- A date as delivered by `get_current_date`: year, month (1-12), day. -/
def OptDate : Type := Option (Nat × Nat × Nat)

/-- `compute_deficit`, with the `float` arithmetic idealised over `ℚ`:
`expected = goal * (day / days_in_month)`, clamped below at 0; an
unavailable date yields 0. -/
def compute_deficit (date : OptDate) (goal actual : Nat) : ℚ :=
  match date with
  | none => 0
  | some (y, m, d) =>
    let dim : Nat := days_in_month y m
    let expected : ℚ := (goal : ℚ) * ((d : ℚ) / (dim : ℚ))
    let deficit : ℚ := expected - (actual : ℚ)
    if deficit < 0 then 0 else deficit

/-! ### State -/

/-- The `mode_t` enum. -/
inductive Mode where
  | normal
  | showGet
  | setA
  | setB
deriving DecidableEq

/-- The `state_t` aggregate. -/
structure State where
  tally_a : Nat
  tally_b : Nat
  goal_a : Nat
  goal_b : Nat
  hold_sec_a : Nat
  hold_sec_b : Nat
  action_done_a : Bool
  action_done_b : Bool
  ms_clock : Nat
  last_tap_ms : Nat
  tap_count : Nat
  last_gesture_ms : Nat
  mode : Mode
  get_sec_remaining : Nat
deriving DecidableEq

/-- A gesture whose handler fired (ghost observation for the theorems). -/
inductive Gesture where
  | single
  | double
  | triple
deriving DecidableEq

/-! ### Tap action handlers -/

/-- `handle_single_tap`: enter `MODE_SHOW_GET` for 3 s if A's deficit
exceeds the `0.0001f` threshold. -/
def handle_single_tap (date : OptDate) (s : State) : State :=
  if compute_deficit date s.goal_a s.tally_a > 1 / 10000 then
    { s with mode := Mode.showGet, get_sec_remaining := 3 }
  else s

/-- `handle_double_tap`: enter `MODE_SHOW_GET` for 3 s if B's deficit
exceeds the `0.0001f` threshold. -/
def handle_double_tap (date : OptDate) (s : State) : State :=
  if compute_deficit date s.goal_b s.tally_b > 1 / 10000 then
    { s with mode := Mode.showGet, get_sec_remaining := 3 }
  else s

/-- `handle_triple_tap`: toggle between `MODE_SET_A` and `MODE_SET_B`. -/
def handle_triple_tap (s : State) : State :=
  if s.mode = Mode.setA then { s with mode := Mode.setB }
  else { s with mode := Mode.setA }

/-! ### Gesture recognition (the tap block of `EVENT_TICK`) -/

/-- The immediate double-tap check (bit 5 of the interrupt source). -/
def doubleStep (date : OptDate) (int_src now : Nat) (s : State) :
    State × List Gesture :=
  if int_src.testBit 5 then
    if u32sub now s.last_gesture_ms > 250 then
      ({ handle_double_tap date s with
          last_gesture_ms := now, tap_count := 0, last_tap_ms := 0 },
        [Gesture.double])
    else (s, [])
  else (s, [])

/-- The single-tap accumulation and triple-tap check (bit 6). -/
def singleStep (_date : OptDate) (int_src now : Nat) (s : State) :
    State × List Gesture :=
  if int_src.testBit 6 then
    if u32sub now s.last_gesture_ms > 250 then
      let s1 : State :=
        if s.tap_count = 0 then { s with tap_count := 1, last_tap_ms := now }
        else if u32sub now s.last_tap_ms ≤ 1500 then
          { s with tap_count := (s.tap_count + 1) % 256, last_tap_ms := now }
        else { s with tap_count := 1, last_tap_ms := now }
      if s1.tap_count ≥ 3 then
        if u32sub now s1.last_gesture_ms > 250 then
          ({ handle_triple_tap s1 with
              last_gesture_ms := now, tap_count := 0, last_tap_ms := 0 },
            [Gesture.triple])
        else ({ s1 with tap_count := 0, last_tap_ms := 0 }, [])
      else (s1, [])
    else (s, [])
  else (s, [])

/-- Stale-run finalization: a run older than the 1500 ms window is confirmed
as a single tap (if debounce allows) and cleared. -/
def staleStep (date : OptDate) (now : Nat) (s : State) : State × List Gesture :=
  if s.tap_count > 0 then
    if u32sub now s.last_tap_ms > 1500 then
      if u32sub now s.last_gesture_ms > 250 then
        ({ handle_single_tap date s with
            last_gesture_ms := now, tap_count := 0, last_tap_ms := 0 },
          [Gesture.single])
      else ({ s with tap_count := 0, last_tap_ms := 0 }, [])
    else (s, [])
  else (s, [])

/-- The whole per-tick gesture block, in source order: double-tap check, then
single-tap accumulation / triple-tap check, then stale-run finalization. -/
def gestureBlock (date : OptDate) (int_src now : Nat) (s : State) :
    State × List Gesture :=
  let r1 := doubleStep date int_src now s
  let r2 := singleStep date int_src now r1.1
  let r3 := staleStep date now r2.1
  (r3.1, r1.2 ++ r2.2 ++ r3.2)

/-! ### Hold-action detection (the button block of `EVENT_TICK`) -/

/-- Button-LIGHT hold handling: one action per continuous hold on tally A. -/
def holdStepA (pressed : Bool) (s : State) (st : Storage) : State × Storage :=
  if pressed then
    let h := (s.hold_sec_a + 1) % 256
    let s1 := { s with hold_sec_a := h }
    if s1.action_done_a = false then
      if h ≥ 2 ∧ h < 5 then
        let t := if s1.tally_a < 999 then s1.tally_a + 1 else s1.tally_a
        ({ s1 with tally_a := t, action_done_a := true },
          backup_write_u16 st 0 1 t)
      else if h ≥ 5 then
        ({ s1 with tally_a := 0, action_done_a := true },
          backup_write_u16 st 0 1 0)
      else (s1, st)
    else (s1, st)
  else ({ s with hold_sec_a := 0, action_done_a := false }, st)

/-- Button-ALARM hold handling: one action per continuous hold on tally B. -/
def holdStepB (pressed : Bool) (s : State) (st : Storage) : State × Storage :=
  if pressed then
    let h := (s.hold_sec_b + 1) % 256
    let s1 := { s with hold_sec_b := h }
    if s1.action_done_b = false then
      if h ≥ 2 ∧ h < 5 then
        let t := if s1.tally_b < 99 then s1.tally_b + 1 else s1.tally_b
        ({ s1 with tally_b := t, action_done_b := true },
          backup_write_u16 st 2 3 t)
      else if h ≥ 5 then
        ({ s1 with tally_b := 0, action_done_b := true },
          backup_write_u16 st 2 3 0)
      else (s1, st)
    else (s1, st)
  else ({ s with hold_sec_b := 0, action_done_b := false }, st)

/-- The `MODE_SHOW_GET` countdown bookkeeping at the end of a whole-second
tick. -/
def countdownStep (s : State) : State :=
  if s.mode = Mode.showGet then
    let g := if s.get_sec_remaining > 0 then s.get_sec_remaining - 1
             else s.get_sec_remaining
    if g = 0 then { s with get_sec_remaining := g, mode := Mode.normal }
    else { s with get_sec_remaining := g }
  else s

/-! ### Events and the event loop -/

/-- The per-tick environment: button levels, the LIS2DW interrupt-source
byte, and the date source. -/
structure TickEnv where
  pressedA : Bool
  pressedB : Bool
  int_src : Nat
  date : OptDate

/-- The `movement_event_t` cases `tally_face_loop` distinguishes. -/
inductive Event where
  | activate
  | tick (subsecond : Nat) (env : TickEnv)
  | lightUp
  | alarmUp
  | modeUp
  | other

/-- Result of one `tally_face_loop` call: the new state, the new backup
storage, the returned `bool`, and the (ghost) gestures fired. -/
structure LoopResult where
  state : State
  storage : Storage
  active : Bool
  fired : List Gesture

/-- The whole-second part of `EVENT_TICK` (`event.subsecond == 0`): advance
the ms clock, run both hold detectors, the gesture block, then the
countdown. -/
def tickSecond (env : TickEnv) (s : State) (st : Storage) :
    State × Storage × List Gesture :=
  let s0 := { s with ms_clock := (s.ms_clock + 1000) % U32 }
  let ra := holdStepA env.pressedA s0 st
  let rb := holdStepB env.pressedB ra.1 ra.2
  let now := rb.1.ms_clock
  let rg := gestureBlock env.date env.int_src now rb.1
  (countdownStep rg.1, rb.2, rg.2)

/-- `tally_face_loop`. -/
def tally_face_loop (ev : Event) (s : State) (st : Storage) : LoopResult :=
  match ev with
  | Event.activate =>
    ⟨{ s with
        hold_sec_a := 0, hold_sec_b := 0
        action_done_a := false, action_done_b := false }, st, true, []⟩
  | Event.tick subsecond env =>
    if subsecond = 0 then
      let r := tickSecond env s st
      ⟨r.1, r.2.1, true, r.2.2⟩
    else ⟨s, st, true, []⟩
  | Event.lightUp =>
    if s.mode = Mode.setA then
      let g1 := if s.goal_a < 999 then s.goal_a + 1 else s.goal_a
      let g2 := if g1 < 1 then 1 else g1
      let g3 := if g2 > 999 then 999 else g2
      ⟨{ s with goal_a := g3 }, backup_write_u16 st 4 5 g3, true, []⟩
    else ⟨s, st, true, []⟩
  | Event.alarmUp =>
    if s.mode = Mode.setA then
      let g := if s.goal_a > 1 then s.goal_a - 1 else s.goal_a
      ⟨{ s with goal_a := g }, backup_write_u16 st 4 5 g, true, []⟩
    else if s.mode = Mode.setB then
      let g := if s.goal_b > 1 then s.goal_b - 1 else s.goal_b
      ⟨{ s with goal_b := g }, backup_write_u16 st 6 7 g, true, []⟩
    else ⟨s, st, true, []⟩
  | Event.modeUp =>
    if s.mode = Mode.setA ∨ s.mode = Mode.setB then
      ⟨{ s with mode := Mode.normal }, st, true, []⟩
    else ⟨s, st, false, []⟩
  | Event.other => ⟨s, st, true, []⟩

/-- `tally_face_setup`: load the four persisted fields and validate them. -/
def tally_face_setup (st : Storage) : State :=
  let ta0 := backup_read_u16 st 0 1
  let tb0 := backup_read_u16 st 2 3
  let sg_a := backup_read_u16 st 4 5
  let sg_b := backup_read_u16 st 6 7
  let ga := if sg_a < 1 ∨ sg_a > 999 then 12 else sg_a
  let gb := if sg_b < 1 ∨ sg_b > 99 then 4 else sg_b
  let ta := if ta0 > 999 then 999 else ta0
  let tb := if tb0 > 99 then 99 else tb0
  { tally_a := ta, tally_b := tb, goal_a := ga, goal_b := gb
    hold_sec_a := 0, hold_sec_b := 0
    action_done_a := false, action_done_b := false
    ms_clock := 0, last_tap_ms := 0, tap_count := 0, last_gesture_ms := 0
    mode := Mode.normal, get_sec_remaining := 0 }

/-! ### Rendering -/

/-- The main display line: the current time (`watch_display_time`), literal
text, or a deficit value whose `%5.2f` formatting is done by the display
layer. -/
inductive MainLine where
  | time
  | text (t : String)
  | deficitVal (q : ℚ)
deriving DecidableEq

/-- Left-pad a string to width `w` with character `c` (`snprintf` minimum
field width). -/
def padLeft (c : Char) (w : Nat) (t : String) : String :=
  String.mk (List.replicate (w - t.length) c) ++ t

/-- Decimal rendering of `n`, zero-padded to minimum width `w` (`%0wu`). -/
def padZero (w n : Nat) : String := padLeft '0' w (Nat.repr n)

/-- Decimal rendering of `n`, space-padded to minimum width `w` (`%wu`). -/
def padSpace (w n : Nat) : String := padLeft ' ' w (Nat.repr n)

/-- `render_top_line`: `snprintf(buf, len, "A:%03u B:%02u", tally_a, tally_b)`. -/
def render_top_line (s : State) : String :=
  "A:" ++ padZero 3 s.tally_a ++ " B:" ++ padZero 2 s.tally_b

/-- The render block at the end of `EVENT_TICK`, as a pure function from the
date and the state to the two display lines. -/
def render (date : OptDate) (s : State) : String × MainLine :=
  if s.mode = Mode.showGet then
    let def_a := compute_deficit date s.goal_a s.tally_a
    let def_b := compute_deficit date s.goal_b s.tally_b
    if def_a > 1 / 10000 then ("GET A", MainLine.deficitVal def_a)
    else if def_b > 1 / 10000 then ("GET B", MainLine.deficitVal def_b)
    else (render_top_line s, MainLine.time)
  else if s.mode = Mode.setA then
    ("SET A", MainLine.text (padSpace 3 s.goal_a))
  else if s.mode = Mode.setB then
    ("SET B", MainLine.text (padSpace 2 s.goal_b))
  else (render_top_line s, MainLine.time)

/-! ### Drivers for concrete scenarios -/

/-- Run a sequence of whole-second ticks, accumulating the fired gestures. -/
def runTicks : List TickEnv → State → Storage → State × Storage × List Gesture
  | [], s, st => (s, st, [])
  | e :: rest, s, st =>
    let r := tally_face_loop (Event.tick 0 e) s st
    let r2 := runTicks rest r.state r.storage
    (r2.1, r2.2.1, r.fired ++ r2.2.2)

/-- The freshly initialised state (`tally_face_setup` over zeroed storage). -/
def initState : State := tally_face_setup (fun _ => 0)

/-- All-zero backup storage. -/
def zeroStorage : Storage := fun _ => 0

/-- A tick with button LIGHT held, no taps, date unavailable. -/
def envPressA : TickEnv := ⟨true, false, 0, none⟩

/-- A quiet tick: no buttons, no taps, date unavailable. -/
def envIdle : TickEnv := ⟨false, false, 0, none⟩

/-- A tick whose interrupt source reports a single tap (bit 6). -/
def envTap1 : TickEnv := ⟨false, false, 64, none⟩

/-- Store all four persisted fields (each as a little-endian 16-bit pair at
its layout offsets). -/
def storeAll (ta tb ga gb : Nat) (st : Storage) : Storage :=
  backup_write_u16 (backup_write_u16 (backup_write_u16
    (backup_write_u16 st 0 1 ta) 2 3 tb) 4 5 ga) 6 7 gb

/-- The bounds invariant of the spec's data model: `0 ≤ tally_a ≤ 999`,
`0 ≤ tally_b ≤ 99`, `1 ≤ goal_a ≤ 999`, `1 ≤ goal_b ≤ 99`. -/
def Inv (s : State) : Prop :=
  s.tally_a ≤ 999 ∧ s.tally_b ≤ 99 ∧
  1 ≤ s.goal_a ∧ s.goal_a ≤ 999 ∧ 1 ≤ s.goal_b ∧ s.goal_b ≤ 99

/-! ## Arithmetic helper lemmas -/

theorem u32sub_self (a : Nat) : u32sub a a = 0 := by
  unfold u32sub U32
  have h : a % 4294967296 < 4294967296 := Nat.mod_lt _ (by norm_num)
  omega

theorem u32sub_of_le (a b : Nat) (h1 : b ≤ a) (h2 : a < U32) :
    u32sub a b = a - b := by
  unfold u32sub U32 at *
  have hb : b < 4294967296 := lt_of_le_of_lt h1 h2
  rw [Nat.mod_eq_of_lt h2, Nat.mod_eq_of_lt hb]
  omega

theorem mdays_getD_bounds (i : Nat) :
    28 ≤ mdays.getD i 31 ∧ mdays.getD i 31 ≤ 31 := by
  by_cases h : i < 12
  · interval_cases i <;> decide
  · rw [List.getD_eq_default]
    · exact ⟨by norm_num, le_refl _⟩
    · simp only [mdays, List.length]
      omega

theorem days_in_month_bounds (y m : Nat) :
    28 ≤ days_in_month y m ∧ days_in_month y m ≤ 31 := by
  unfold days_in_month
  split
  · exact mdays_getD_bounds (m - 1)
  · split <;> omega

/-- When the deficit is positive it is at least `1/31`: the numerator
`goal * day - actual * days_in_month` is a positive integer and the
denominator is a month length. -/
theorem compute_deficit_pos_ge (date : OptDate) (g a : Nat)
    (h : 0 < compute_deficit date g a) :
    (1 : ℚ) / 31 ≤ compute_deficit date g a := by
  match date with
  | none => simp [compute_deficit] at h
  | some (y, m, d) =>
    obtain ⟨hd28, hd31⟩ := days_in_month_bounds y m
    set dim : Nat := days_in_month y m with hdim
    have hdq : (0 : ℚ) < (dim : ℚ) := by
      have : 0 < dim := lt_of_lt_of_le (by norm_num) hd28
      exact_mod_cast this
    unfold compute_deficit at h ⊢
    simp only at h ⊢
    rw [← hdim] at h ⊢
    set E : ℚ := (g : ℚ) * ((d : ℚ) / (dim : ℚ)) - (a : ℚ) with hE
    by_cases hneg : E < 0
    · simp [if_pos hneg] at h
    · rw [if_neg hneg] at h ⊢
      have hEeq : E = (((g * d : ℕ) : ℚ) - ((a * dim : ℕ) : ℚ)) / (dim : ℚ) := by
        rw [hE]
        push_cast
        field_simp
        ring
      have hnum : (0 : ℚ) < ((g * d : ℕ) : ℚ) - ((a * dim : ℕ) : ℚ) := by
        have h2 := h
        rw [hEeq] at h2
        have h3 := (lt_div_iff hdq).mp h2
        simpa using h3
      have hnat : a * dim < g * d := by
        have := sub_pos.mp hnum
        exact_mod_cast this
      have hone : (1 : ℚ) ≤ ((g * d : ℕ) : ℚ) - ((a * dim : ℕ) : ℚ) := by
        have hs : a * dim + 1 ≤ g * d := hnat
        have hc : ((a * dim + 1 : ℕ) : ℚ) ≤ ((g * d : ℕ) : ℚ) := by exact_mod_cast hs
        push_cast at hc ⊢
        linarith
      have hEge : (1 : ℚ) / (dim : ℚ) ≤ E := by
        rw [hEeq]
        exact (div_le_div_right hdq).mpr hone
      have h31 : (1 : ℚ) / 31 ≤ 1 / (dim : ℚ) := by
        apply one_div_le_one_div_of_le hdq
        exact_mod_cast hd31
      exact le_trans h31 hEge

/-- The code's `> 0.0001f` test is equivalent to strict positivity of the
deficit, because a positive deficit is at least `1/31`. -/
theorem compute_deficit_pos_iff (date : OptDate) (g a : Nat) :
    (1 : ℚ) / 10000 < compute_deficit date g a ↔
      0 < compute_deficit date g a := by
  constructor
  · intro h
    exact lt_trans (by norm_num) h
  · intro h
    exact lt_of_lt_of_le (by norm_num) (compute_deficit_pos_ge date g a h)

/-! ## Claim theorems -/

/-- C3: storing any four 16-bit values and loading yields: a valid value
unchanged (round-trip), a goal outside `[1, max]` replaced by its default
(12 for A, 4 for B), and a tally above its maximum clamped to that maximum. -/
theorem C3_persistence_roundtrip (ta tb ga gb : Nat) (st : Storage)
    (hta : ta < 65536) (htb : tb < 65536)
    (hga : ga < 65536) (hgb : gb < 65536) :
    (tally_face_setup (storeAll ta tb ga gb st)).tally_a = min ta 999 ∧
    (tally_face_setup (storeAll ta tb ga gb st)).tally_b = min tb 99 ∧
    (tally_face_setup (storeAll ta tb ga gb st)).goal_a =
      (if 1 ≤ ga ∧ ga ≤ 999 then ga else 12) ∧
    (tally_face_setup (storeAll ta tb ga gb st)).goal_b =
      (if 1 ≤ gb ∧ gb ≤ 99 then gb else 4) := by
  simp only [tally_face_setup, storeAll, backup_write_u16, backup_read_u16,
    watch_get_backup_data, watch_store_backup_data]
  norm_num
  refine ⟨?_, ?_, ?_, ?_⟩ <;> split_ifs <;> omega

/-- C3 witness: an out-of-range quadruple (1000, 100, 0, 1000) loads as
(999, 99, 12, 4). -/
theorem C3_persistence_roundtrip_witness :
    (tally_face_setup (storeAll 1000 100 0 1000 zeroStorage)).tally_a = min 1000 999 ∧
    (tally_face_setup (storeAll 1000 100 0 1000 zeroStorage)).tally_b = min 100 99 ∧
    (tally_face_setup (storeAll 1000 100 0 1000 zeroStorage)).goal_a =
      (if 1 ≤ 1000 ∧ 1000 ≤ 999 then 1000 else 12) ∧
    (tally_face_setup (storeAll 1000 100 0 1000 zeroStorage)).goal_b =
      (if 1 ≤ 1000 ∧ 1000 ≤ 99 then 1000 else 4) :=
  C3_persistence_roundtrip 1000 100 0 1000 zeroStorage
    (by norm_num) (by norm_num) (by norm_num) (by norm_num)

/-- C4: for every goal, actual and date the deficit equals
`max 0 (goal * (day / days_in_month) - actual)`, is always nonnegative,
is 0 when the date is unavailable, and `days_in_month` applies the
Gregorian leap-year rule to February. -/
theorem C4_deficit_formula (goal actual y m d : Nat) :
    compute_deficit (some (y, m, d)) goal actual =
      max 0 ((goal : ℚ) * ((d : ℚ) / ((days_in_month y m : ℕ) : ℚ)) -
        (actual : ℚ)) ∧
    (∀ date : OptDate, 0 ≤ compute_deficit date goal actual) ∧
    compute_deficit none goal actual = 0 ∧
    days_in_month y 2 =
      (if (y % 4 = 0 ∧ y % 100 ≠ 0) ∨ y % 400 = 0 then 29 else 28) := by
  refine ⟨?_, ?_, rfl, ?_⟩
  · unfold compute_deficit
    simp only
    split
    · rename_i hneg
      rw [max_eq_left (le_of_lt hneg)]
    · rename_i hneg
      rw [max_eq_right (not_lt.mp hneg)]
  · intro date
    match date with
    | none => simp [compute_deficit]
    | some (y2, m2, d2) =>
      unfold compute_deficit
      simp only
      split
      · exact le_refl 0
      · rename_i hneg
        exact not_lt.mp hneg
  · simp [days_in_month]

/-- The spec's own worked example: goal 12 on day 10 of a 30-day month with
tally 2 gives deficit 2. -/
theorem compute_deficit_example :
    compute_deficit (some (2024, 4, 10)) 12 2 = 2 := by
  norm_num [compute_deficit, days_in_month, mdays]

/-- C8: a single-tap gesture enters `ShowDeficit` with countdown 3 exactly
when A's deficit is positive, a double-tap exactly when B's deficit is
positive (independently); otherwise the state is untouched.  The code's
threshold `0.0001` coincides with strict positivity. -/
theorem C8_tap_transitions (date : OptDate) (s : State) :
    handle_single_tap date s =
      (if 0 < compute_deficit date s.goal_a s.tally_a then
        { s with mode := Mode.showGet, get_sec_remaining := 3 }
      else s) ∧
    handle_double_tap date s =
      (if 0 < compute_deficit date s.goal_b s.tally_b then
        { s with mode := Mode.showGet, get_sec_remaining := 3 }
      else s) := by
  constructor
  · unfold handle_single_tap
    simp only [gt_iff_lt, compute_deficit_pos_iff]
  · unfold handle_double_tap
    simp only [gt_iff_lt, compute_deficit_pos_iff]

/-! ## Field-preservation lemmas for the tap handlers and gesture steps -/

theorem handle_single_tap_eta (date : OptDate) (s : State) :
    (handle_single_tap date s).tally_a = s.tally_a ∧
    (handle_single_tap date s).tally_b = s.tally_b ∧
    (handle_single_tap date s).goal_a = s.goal_a ∧
    (handle_single_tap date s).goal_b = s.goal_b ∧
    (handle_single_tap date s).tap_count = s.tap_count ∧
    (handle_single_tap date s).last_tap_ms = s.last_tap_ms ∧
    (handle_single_tap date s).last_gesture_ms = s.last_gesture_ms := by
  unfold handle_single_tap
  split <;> simp

theorem handle_double_tap_eta (date : OptDate) (s : State) :
    (handle_double_tap date s).tally_a = s.tally_a ∧
    (handle_double_tap date s).tally_b = s.tally_b ∧
    (handle_double_tap date s).goal_a = s.goal_a ∧
    (handle_double_tap date s).goal_b = s.goal_b ∧
    (handle_double_tap date s).tap_count = s.tap_count ∧
    (handle_double_tap date s).last_tap_ms = s.last_tap_ms ∧
    (handle_double_tap date s).last_gesture_ms = s.last_gesture_ms := by
  unfold handle_double_tap
  split <;> simp

theorem handle_triple_tap_eta (s : State) :
    (handle_triple_tap s).tally_a = s.tally_a ∧
    (handle_triple_tap s).tally_b = s.tally_b ∧
    (handle_triple_tap s).goal_a = s.goal_a ∧
    (handle_triple_tap s).goal_b = s.goal_b ∧
    (handle_triple_tap s).tap_count = s.tap_count ∧
    (handle_triple_tap s).last_tap_ms = s.last_tap_ms ∧
    (handle_triple_tap s).last_gesture_ms = s.last_gesture_ms := by
  unfold handle_triple_tap
  split <;> simp

theorem doubleStep_counters (date : OptDate) (i now : Nat) (s : State) :
    (doubleStep date i now s).1.tally_a = s.tally_a ∧
    (doubleStep date i now s).1.tally_b = s.tally_b ∧
    (doubleStep date i now s).1.goal_a = s.goal_a ∧
    (doubleStep date i now s).1.goal_b = s.goal_b := by
  obtain ⟨h1, h2, h3, h4, _⟩ := handle_double_tap_eta date s
  unfold doubleStep
  split_ifs <;> simp_all

theorem singleStep_counters (date : OptDate) (i now : Nat) (s : State) :
    (singleStep date i now s).1.tally_a = s.tally_a ∧
    (singleStep date i now s).1.tally_b = s.tally_b ∧
    (singleStep date i now s).1.goal_a = s.goal_a ∧
    (singleStep date i now s).1.goal_b = s.goal_b := by
  simp only [singleStep, handle_triple_tap]
  split_ifs <;> simp_all

theorem staleStep_counters (date : OptDate) (now : Nat) (s : State) :
    (staleStep date now s).1.tally_a = s.tally_a ∧
    (staleStep date now s).1.tally_b = s.tally_b ∧
    (staleStep date now s).1.goal_a = s.goal_a ∧
    (staleStep date now s).1.goal_b = s.goal_b := by
  obtain ⟨h1, h2, h3, h4, _⟩ := handle_single_tap_eta date s
  unfold staleStep
  split_ifs <;> simp_all

theorem gestureBlock_counters (date : OptDate) (i now : Nat) (s : State) :
    (gestureBlock date i now s).1.tally_a = s.tally_a ∧
    (gestureBlock date i now s).1.tally_b = s.tally_b ∧
    (gestureBlock date i now s).1.goal_a = s.goal_a ∧
    (gestureBlock date i now s).1.goal_b = s.goal_b := by
  unfold gestureBlock
  obtain ⟨a1, a2, a3, a4⟩ := doubleStep_counters date i now s
  obtain ⟨b1, b2, b3, b4⟩ := singleStep_counters date i now (doubleStep date i now s).1
  obtain ⟨c1, c2, c3, c4⟩ :=
    staleStep_counters date now (singleStep date i now (doubleStep date i now s).1).1
  simp only
  exact ⟨by rw [c1, b1, a1], by rw [c2, b2, a2], by rw [c3, b3, a3], by rw [c4, b4, a4]⟩

theorem countdownStep_counters (s : State) :
    (countdownStep s).tally_a = s.tally_a ∧
    (countdownStep s).tally_b = s.tally_b ∧
    (countdownStep s).goal_a = s.goal_a ∧
    (countdownStep s).goal_b = s.goal_b := by
  simp only [countdownStep]
  split_ifs <;> simp_all

theorem holdStepA_frame (p : Bool) (s : State) (st : Storage) :
    (holdStepA p s st).1.tally_b = s.tally_b ∧
    (holdStepA p s st).1.goal_a = s.goal_a ∧
    (holdStepA p s st).1.goal_b = s.goal_b ∧
    (s.tally_a ≤ 999 → (holdStepA p s st).1.tally_a ≤ 999) := by
  simp only [holdStepA]
  split_ifs <;> simp <;> omega

theorem holdStepB_frame (p : Bool) (s : State) (st : Storage) :
    (holdStepB p s st).1.tally_a = s.tally_a ∧
    (holdStepB p s st).1.goal_a = s.goal_a ∧
    (holdStepB p s st).1.goal_b = s.goal_b ∧
    (s.tally_b ≤ 99 → (holdStepB p s st).1.tally_b ≤ 99) := by
  simp only [holdStepB]
  split_ifs <;> simp <;> omega

/-- C9 counterexample: with tallies (50, 7) the Normal top line is
`"A:050 B:07"` (one space), not the claimed `"A:050  B:07"` (two spaces);
and in SetGoalA with goal 5 the main line is the space-padded `"  5"`, not
the claimed zero-padded `"005"`. -/
theorem C9_render_counterexample :
    (render none { initState with tally_a := 50, tally_b := 7 }).1 ≠
      "A:050  B:07" ∧
    (render none { initState with mode := Mode.setA, goal_a := 5 }).2 ≠
      MainLine.text "005" := by
  constructor <;> decide

/-- C9 (amended): in SetGoalA the renderer outputs top `"SET A"` with
`goal_a` right-aligned space-padded to width 3 (`%3u`) on the main line, in
SetGoalB top `"SET B"` with `goal_b` space-padded to width 2, and in Normal
the top line is `"A:"` + tally A zero-padded to 3 digits + one space +
`"B:"` + tally B zero-padded to 2 digits, with the current time on the main
line. -/
theorem C9_render_amended (date : OptDate) (s : State) :
    (s.mode = Mode.setA →
      render date s = ("SET A", MainLine.text (padSpace 3 s.goal_a))) ∧
    (s.mode = Mode.setB →
      render date s = ("SET B", MainLine.text (padSpace 2 s.goal_b))) ∧
    (s.mode = Mode.normal →
      render date s =
        ("A:" ++ padZero 3 s.tally_a ++ " B:" ++ padZero 2 s.tally_b,
          MainLine.time)) := by
  refine ⟨?_, ?_, ?_⟩ <;> intro h <;>
    simp [render, h, render_top_line]

/-- C9 amended witness: concrete renders, via `C9_render_amended`. -/
theorem C9_render_amended_witness :
    render none { initState with mode := Mode.setA, goal_a := 5 } =
      ("SET A", MainLine.text "  5") ∧
    (render none { initState with tally_a := 50, tally_b := 7 }).1 =
      "A:050 B:07" := by
  constructor
  · have h :=
      (C9_render_amended none { initState with mode := Mode.setA, goal_a := 5 }).1 rfl
    rw [h]
    decide
  · have h :=
      (C9_render_amended none { initState with tally_a := 50, tally_b := 7 }).2.2 rfl
    rw [h]
    decide

/-- C1: the claim says a hold of `d ≥ 5` whole-second ticks resets the
tally, and in particular 5 seconds from `tally_a = 50` must end at 0.  The
code instead fires the increment at the second tick and latches
`action_done_a`, so the reset branch (`hold_sec_a >= RESET_HOLD_SECONDS`)
is unreachable in a continuous hold that starts from release: the 5-second
hold ends at 51.  The shorter-hold cases the claim also states (no action
for `d = 1`, one increment for `d ∈ [2,5)`) do hold. -/
theorem C1_hold_reset_never_fires :
    (runTicks (List.replicate 5 envPressA ++ [envIdle])
        { initState with tally_a := 50 } zeroStorage).1.tally_a = 51 ∧
    (runTicks (List.replicate 5 envPressA)
        { initState with tally_a := 50 } zeroStorage).2.1 0 = 51 ∧
    (runTicks (List.replicate 1 envPressA ++ [envIdle])
        { initState with tally_a := 50 } zeroStorage).1.tally_a = 50 ∧
    (runTicks (List.replicate 2 envPressA ++ [envIdle])
        { initState with tally_a := 50 } zeroStorage).1.tally_a = 51 ∧
    (runTicks (List.replicate 4 envPressA ++ [envIdle])
        { initState with tally_a := 50 } zeroStorage).1.tally_a = 51 := by
  refine ⟨?_, ?_, ?_, ?_, ?_⟩ <;> decide

/-- C2: the bounds `tally_a ≤ 999`, `tally_b ≤ 99`, `1 ≤ goal_a ≤ 999`,
`1 ≤ goal_b ≤ 99` are established by `tally_face_setup` and preserved by
every event `tally_face_loop` processes; and the reset action always sets
the tally to exactly 0. -/
theorem C2_bounds_invariant :
    (∀ st : Storage, Inv (tally_face_setup st)) ∧
    (∀ (ev : Event) (s : State) (st : Storage),
      Inv s → Inv (tally_face_loop ev s st).state) ∧
    (∀ (s : State) (st : Storage), s.action_done_a = false →
      5 ≤ (s.hold_sec_a + 1) % 256 → (holdStepA true s st).1.tally_a = 0) ∧
    (∀ (s : State) (st : Storage), s.action_done_b = false →
      5 ≤ (s.hold_sec_b + 1) % 256 → (holdStepB true s st).1.tally_b = 0) := by
  refine ⟨?_, ?_, ?_, ?_⟩
  · intro st
    simp only [tally_face_setup, Inv]
    split_ifs <;> simp_all <;> omega
  · intro ev s st h
    obtain ⟨h1, h2, h3, h4, h5, h6⟩ := h
    cases ev with
    | activate => exact ⟨h1, h2, h3, h4, h5, h6⟩
    | tick subsecond env =>
      simp only [tally_face_loop]
      split
      · dsimp only [tickSecond]
        set s0 : State := { s with ms_clock := (s.ms_clock + 1000) % U32 } with hs0
        obtain ⟨a1, a2, a3, a4⟩ := holdStepA_frame env.pressedA s0 st
        set sA := (holdStepA env.pressedA s0 st).1
        set stA := (holdStepA env.pressedA s0 st).2
        obtain ⟨b1, b2, b3, b4⟩ := holdStepB_frame env.pressedB sA stA
        set sB := (holdStepB env.pressedB sA stA).1
        obtain ⟨g1, g2, g3, g4⟩ :=
          gestureBlock_counters env.date env.int_src sB.ms_clock sB
        set sG := (gestureBlock env.date env.int_src sB.ms_clock sB).1
        obtain ⟨c1, c2, c3, c4⟩ := countdownStep_counters sG
        refine ⟨?_, ?_, ?_, ?_, ?_, ?_⟩
        · rw [c1, g1, b1]
          exact a4 h1
        · rw [c2, g2]
          apply b4
          rw [a1]
          exact h2
        · rw [c3, g3, b2, a2]
          exact h3
        · rw [c3, g3, b2, a2]
          exact h4
        · rw [c4, g4, b3, a3]
          exact h5
        · rw [c4, g4, b3, a3]
          exact h6
      · exact ⟨h1, h2, h3, h4, h5, h6⟩
    | lightUp =>
      simp only [tally_face_loop]
      split_ifs <;> simp_all [Inv] <;> omega
    | alarmUp =>
      simp only [tally_face_loop]
      split_ifs <;> simp_all [Inv] <;> omega
    | modeUp =>
      simp only [tally_face_loop]
      split_ifs <;> exact ⟨h1, h2, h3, h4, h5, h6⟩
    | other => exact ⟨h1, h2, h3, h4, h5, h6⟩
  · intro s st ha hh
    simp only [holdStepA]
    split_ifs <;> simp_all <;> omega
  · intro s st ha hh
    simp only [holdStepB]
    split_ifs <;> simp_all <;> omega

/-- C2 witness: the invariant holds after setup over zeroed storage and
after one light-button-up from there; the reset branch yields 0 at a
concrete state. -/
theorem C2_bounds_invariant_witness :
    Inv (tally_face_setup zeroStorage) ∧
    Inv (tally_face_loop Event.lightUp (tally_face_setup zeroStorage)
      zeroStorage).state ∧
    (holdStepA true { initState with tally_a := 50, hold_sec_a := 4 }
      zeroStorage).1.tally_a = 0 := by
  refine ⟨?_, ?_, ?_⟩
  · exact C2_bounds_invariant.1 zeroStorage
  · exact C2_bounds_invariant.2.1 Event.lightUp (tally_face_setup zeroStorage)
      zeroStorage (C2_bounds_invariant.1 zeroStorage)
  · exact C2_bounds_invariant.2.2.1 { initState with tally_a := 50, hold_sec_a := 4 }
      zeroStorage rfl (by decide)

/-! ## Gesture-step case analyses -/

theorem singleStep_of_gesture_now (d : OptDate) (i now : Nat) (s : State)
    (h : s.last_gesture_ms = now) : singleStep d i now s = (s, []) := by
  simp only [singleStep]
  rw [h, u32sub_self]
  split_ifs <;> first | rfl | omega

theorem doubleStep_cases (d : OptDate) (i now : Nat) (s : State) :
    doubleStep d i now s = (s, []) ∨
    ((doubleStep d i now s).2 = [Gesture.double] ∧
      (doubleStep d i now s).1.tap_count = 0 ∧
      (doubleStep d i now s).1.last_gesture_ms = now) := by
  simp only [doubleStep]
  split_ifs <;> simp

theorem singleStep_cases (d : OptDate) (i now : Nat) (s : State) :
    singleStep d i now s = (s, []) ∨
    ((singleStep d i now s).2 = [] ∧
      ((singleStep d i now s).1.tap_count = 0 ∨
        (singleStep d i now s).1.last_tap_ms = now)) ∨
    ((singleStep d i now s).2 = [Gesture.triple] ∧
      (singleStep d i now s).1.tap_count = 0 ∧
      (singleStep d i now s).1.last_gesture_ms = now) := by
  simp only [singleStep]
  split_ifs <;> simp

theorem staleStep_fired_le_one (d : OptDate) (now : Nat) (s : State) :
    (staleStep d now s).2.length ≤ 1 := by
  simp only [staleStep]
  split_ifs <;> simp

theorem staleStep_no_fire (d : OptDate) (now : Nat) (s : State)
    (h : s.tap_count = 0 ∨ s.last_tap_ms = now ∨ s.last_gesture_ms = now) :
    (staleStep d now s).2 = [] := by
  simp only [staleStep]
  split_ifs with h1 h2 h3 <;> try rfl
  exfalso
  rcases h with h | h | h
  · omega
  · rw [h, u32sub_self] at h2
    omega
  · rw [h, u32sub_self] at h3
    omega

/-- Within one gesture block, the three phases fire at most one gesture in
total: a fired double-tap debounces the single-tap phase and clears the run;
single-tap accumulation stamps `last_tap_ms = now`, which blocks stale-run
finalization; a fired triple-tap clears the run. -/
theorem gestureBlock_fired_le_one (d : OptDate) (i now : Nat) (s : State) :
    (gestureBlock d i now s).2.length ≤ 1 := by
  simp only [gestureBlock]
  rcases doubleStep_cases d i now s with hd | ⟨hd2, hdc, hdg⟩
  · rw [hd]
    dsimp only
    rcases singleStep_cases d i now s with hs | ⟨hs2, hsc⟩ | ⟨hs2, hsc, hsg⟩
    · rw [hs]
      dsimp only
      have h0 := staleStep_fired_le_one d now s
      simpa using h0
    · rw [hs2]
      have h0 : (staleStep d now (singleStep d i now s).1).2 = [] := by
        apply staleStep_no_fire
        rcases hsc with h | h
        · exact Or.inl h
        · exact Or.inr (Or.inl h)
      rw [h0]
      simp
    · rw [hs2]
      have h0 : (staleStep d now (singleStep d i now s).1).2 = [] :=
        staleStep_no_fire d now _ (Or.inl hsc)
      rw [h0]
      simp
  · have hs := singleStep_of_gesture_now d i now (doubleStep d i now s).1 hdg
    rw [hd2, hs]
    dsimp only
    have h0 : (staleStep d now (doubleStep d i now s).1).2 = [] :=
      staleStep_no_fire d now _ (Or.inr (Or.inr hdg))
    rw [h0]
    simp

/-- C5: per whole-second tick the gesture block evaluates double-tap check,
then single-tap accumulation / triple-tap check, then stale-run
finalization (the first conjunct states this composition), and for every
event, interrupt-source byte and prior state at most one gesture fires. -/
theorem C5_gesture_order_and_single_fire :
    (∀ (d : OptDate) (i now : Nat) (s : State),
      gestureBlock d i now s =
        ((staleStep d now (singleStep d i now (doubleStep d i now s).1).1).1,
          (doubleStep d i now s).2 ++
            (singleStep d i now (doubleStep d i now s).1).2 ++
            (staleStep d now (singleStep d i now (doubleStep d i now s).1).1).2)) ∧
    (∀ (ev : Event) (s : State) (st : Storage),
      (tally_face_loop ev s st).fired.length ≤ 1) := by
  constructor
  · intro d i now s
    rfl
  · intro ev s st
    cases ev with
    | activate => simp [tally_face_loop]
    | tick subsecond env =>
      simp only [tally_face_loop]
      split
      · dsimp only [tickSecond]
        exact gestureBlock_fired_le_one env.date env.int_src _ _
      · simp
    | lightUp =>
      simp only [tally_face_loop]
      split_ifs <;> simp
    | alarmUp =>
      simp only [tally_face_loop]
      split_ifs <;> simp
    | modeUp =>
      simp only [tally_face_loop]
      split_ifs <;> simp
    | other => simp [tally_face_loop]

/-- C6: a run of 1 or 2 taps whose last tap is more than 1500 ms old is
finalized, on a tick with no new tap, as exactly one single-tap gesture
fired at that tick (`last_gesture_ms` is stamped with the current time, not
the original tap time) and the run state is cleared.  The closed conjuncts
run the example: a tap on the first tick and no follow-up yields exactly
one single-tap gesture, fired only once the window has lapsed. -/
theorem C6_stale_run_finalization :
    (∀ (d : OptDate) (i now : Nat) (s : State),
      i.testBit 5 = false → i.testBit 6 = false →
      (s.tap_count = 1 ∨ s.tap_count = 2) →
      s.last_gesture_ms ≤ s.last_tap_ms → s.last_tap_ms ≤ now → now < U32 →
      1500 < now - s.last_tap_ms →
      gestureBlock d i now s =
        ({ handle_single_tap d s with
            last_gesture_ms := now, tap_count := 0, last_tap_ms := 0 },
          [Gesture.single])) ∧
    (runTicks [envTap1, envIdle, envIdle] initState zeroStorage).2.2 =
      [Gesture.single] ∧
    (runTicks [envTap1, envIdle] initState zeroStorage).2.2 = [] := by
  refine ⟨?_, by decide, by decide⟩
  intro d i now s hb5 hb6 htc hg1 hg2 hnow hwin
  have htp : 0 < s.tap_count := by rcases htc with h | h <;> omega
  have e1 : doubleStep d i now s = (s, []) := by
    simp [doubleStep, hb5]
  have e2 : singleStep d i now s = (s, []) := by
    simp [singleStep, hb6]
  have hw : u32sub now s.last_tap_ms = now - s.last_tap_ms :=
    u32sub_of_le _ _ hg2 hnow
  have hdeb : u32sub now s.last_gesture_ms = now - s.last_gesture_ms :=
    u32sub_of_le _ _ (le_trans hg1 hg2) hnow
  have e3 : staleStep d now s =
      ({ handle_single_tap d s with
          last_gesture_ms := now, tap_count := 0, last_tap_ms := 0 },
        [Gesture.single]) := by
    simp only [staleStep, hw, hdeb]
    rw [if_pos htp, if_pos hwin, if_pos (by omega)]
  simp only [gestureBlock, e1, e2, e3]
  simp

/-- C6 witness: a 1-tap run from `ms = 1000`, finalized at `ms = 3000`. -/
theorem C6_stale_run_finalization_witness :
    gestureBlock none 0 3000
        { initState with tap_count := 1, last_tap_ms := 1000 } =
      ({ handle_single_tap none
          { initState with tap_count := 1, last_tap_ms := 1000 } with
          last_gesture_ms := 3000, tap_count := 0, last_tap_ms := 0 },
        [Gesture.single]) :=
  C6_stale_run_finalization.1 none 0 3000
    { initState with tap_count := 1, last_tap_ms := 1000 }
    (by decide) (by decide) (Or.inl rfl) (by decide) (by decide)
    (by decide) (by decide)

/-- C7: three single taps at `t0`, `t0 + 400`, `t0 + 800` ms (each within
the 1500 ms window of the previous, the first clear of the debounce of any
prior gesture) fire exactly one triple-tap gesture and no single- or
double-tap: the third tap reaches `tap_count = 3`, fires immediately, and
resets the run. -/
theorem C7_three_taps_one_triple (d : OptDate) (t0 : Nat) (s : State)
    (htc : s.tap_count = 0) (hdeb : s.last_gesture_ms + 250 < t0)
    (hU : t0 + 800 < U32) :
    (gestureBlock d 64 t0 s).2 = [] ∧
    (gestureBlock d 64 (t0 + 400) (gestureBlock d 64 t0 s).1).2 = [] ∧
    (gestureBlock d 64 (t0 + 800)
      (gestureBlock d 64 (t0 + 400) (gestureBlock d 64 t0 s).1).1).2 =
      [Gesture.triple] := by
  have hb5 : (64 : Nat).testBit 5 = false := by decide
  have hb6 : (64 : Nat).testBit 6 = true := by decide
  have ht1 : t0 < U32 := by omega
  have ht2 : t0 + 400 < U32 := by omega
  have ed : ∀ (t : Nat) (s2 : State), doubleStep d 64 t s2 = (s2, []) := by
    intro t s2
    simp [doubleStep, hb5]
  have hu1 : u32sub t0 s.last_gesture_ms = t0 - s.last_gesture_ms :=
    u32sub_of_le _ _ (by omega) ht1
  have hu2 : u32sub (t0 + 400) t0 = 400 := by
    rw [u32sub_of_le _ _ (by omega) ht2]
    omega
  have hu3 : u32sub (t0 + 800) (t0 + 400) = 400 := by
    rw [u32sub_of_le _ _ (by omega) hU]
    omega
  have hu4 : u32sub (t0 + 400) s.last_gesture_ms =
      t0 + 400 - s.last_gesture_ms :=
    u32sub_of_le _ _ (by omega) ht2
  have hu5 : u32sub (t0 + 800) s.last_gesture_ms =
      t0 + 800 - s.last_gesture_ms :=
    u32sub_of_le _ _ (by omega) hU
  have e1s : singleStep d 64 t0 s =
      ({ s with tap_count := 1, last_tap_ms := t0 }, []) := by
    simp only [singleStep, hb6, eq_self_iff_true, if_true, hu1]
    rw [if_pos (show t0 - s.last_gesture_ms > 250 by omega), if_pos htc]
    simp
  have e1 : gestureBlock d 64 t0 s =
      ({ s with tap_count := 1, last_tap_ms := t0 }, []) := by
    simp only [gestureBlock, ed, e1s]
    simp [staleStep, u32sub_self]
  have e2s : singleStep d 64 (t0 + 400)
        ({ s with tap_count := 1, last_tap_ms := t0 } : State) =
      ({ s with tap_count := 2, last_tap_ms := t0 + 400 }, []) := by
    simp only [singleStep, hb6, eq_self_iff_true, if_true]
    simp only [hu4, hu2]
    rw [if_pos (show t0 + 400 - s.last_gesture_ms > 250 by omega)]
    norm_num
  have e2 : gestureBlock d 64 (t0 + 400)
        ({ s with tap_count := 1, last_tap_ms := t0 } : State) =
      ({ s with tap_count := 2, last_tap_ms := t0 + 400 }, []) := by
    simp only [gestureBlock, ed, e2s]
    simp [staleStep, u32sub_self]
  have e3s : singleStep d 64 (t0 + 800)
        ({ s with tap_count := 2, last_tap_ms := t0 + 400 } : State) =
      ({ handle_triple_tap
          ({ s with tap_count := 3, last_tap_ms := t0 + 800 } : State) with
          last_gesture_ms := t0 + 800, tap_count := 0, last_tap_ms := 0 },
        [Gesture.triple]) := by
    simp only [singleStep, hb6, eq_self_iff_true, if_true]
    simp only [hu5, hu3]
    rw [if_pos (show t0 + 800 - s.last_gesture_ms > 250 by omega)]
    norm_num [hu5]
    omega
  have e3 : gestureBlock d 64 (t0 + 800)
        ({ s with tap_count := 2, last_tap_ms := t0 + 400 } : State) =
      ({ handle_triple_tap
          ({ s with tap_count := 3, last_tap_ms := t0 + 800 } : State) with
          last_gesture_ms := t0 + 800, tap_count := 0, last_tap_ms := 0 },
        [Gesture.triple]) := by
    simp only [gestureBlock, ed, e3s]
    obtain ⟨_, _, _, _, h5, _, _⟩ := handle_triple_tap_eta
      ({ s with tap_count := 3, last_tap_ms := t0 + 800 } : State)
    simp [staleStep]
  rw [e1]
  rw [e2]
  rw [e3]
  exact ⟨rfl, rfl, rfl⟩

/-- C7 witness: the three-tap scenario at `t0 = 1000` from the initial
state. -/
theorem C7_three_taps_one_triple_witness :
    (gestureBlock none 64 1000 initState).2 = [] ∧
    (gestureBlock none 64 (1000 + 400)
      (gestureBlock none 64 1000 initState).1).2 = [] ∧
    (gestureBlock none 64 (1000 + 800)
      (gestureBlock none 64 (1000 + 400)
        (gestureBlock none 64 1000 initState).1).1).2 = [Gesture.triple] :=
  C7_three_taps_one_triple none 1000 initState (by decide) (by decide)
    (by decide)

/-- C10: a light-button-up in SetGoalB leaves the state and the backup
storage unchanged (only SetGoalA handles the increment-goal event), and no
event whatsoever raises `goal_b`. -/
theorem C10_goal_b_never_raised :
    (∀ (s : State) (st : Storage), s.mode = Mode.setB →
      tally_face_loop Event.lightUp s st = ⟨s, st, true, []⟩) ∧
    (∀ (ev : Event) (s : State) (st : Storage),
      (tally_face_loop ev s st).state.goal_b ≤ s.goal_b) := by
  constructor
  · intro s st h
    simp [tally_face_loop, h]
  · intro ev s st
    cases ev with
    | activate => simp [tally_face_loop]
    | tick subsecond env =>
      simp only [tally_face_loop]
      split
      · dsimp only [tickSecond]
        set s0 : State := { s with ms_clock := (s.ms_clock + 1000) % U32 } with hs0
        obtain ⟨a1, a2, a3, a4⟩ := holdStepA_frame env.pressedA s0 st
        set sA := (holdStepA env.pressedA s0 st).1
        set stA := (holdStepA env.pressedA s0 st).2
        obtain ⟨b1, b2, b3, b4⟩ := holdStepB_frame env.pressedB sA stA
        set sB := (holdStepB env.pressedB sA stA).1
        obtain ⟨g1, g2, g3, g4⟩ :=
          gestureBlock_counters env.date env.int_src sB.ms_clock sB
        set sG := (gestureBlock env.date env.int_src sB.ms_clock sB).1
        obtain ⟨c1, c2, c3, c4⟩ := countdownStep_counters sG
        rw [c4, g4, b3, a3]
      · simp
    | lightUp =>
      simp only [tally_face_loop]
      split_ifs <;> simp
    | alarmUp =>
      simp only [tally_face_loop]
      split_ifs <;> simp
    | modeUp =>
      simp only [tally_face_loop]
      split_ifs <;> simp
    | other => simp [tally_face_loop]

/-- C10 witness: light-up in SetGoalB at a concrete state is a no-op, and
alarm-up there does not raise `goal_b`. -/
theorem C10_goal_b_never_raised_witness :
    tally_face_loop Event.lightUp { initState with mode := Mode.setB }
        zeroStorage =
      ⟨{ initState with mode := Mode.setB }, zeroStorage, true, []⟩ ∧
    (tally_face_loop Event.alarmUp { initState with mode := Mode.setB }
        zeroStorage).state.goal_b ≤
      ({ initState with mode := Mode.setB } : State).goal_b :=
  ⟨C10_goal_b_never_raised.1 _ _ rfl,
    C10_goal_b_never_raised.2 Event.alarmUp _ _⟩

end TallyFace
